import Mathlib

/-!
Shallow embedding of libsmctrl (repository `mysmctrl`).

The repository ships the public header `src/libsmctrl.h` only; the
implementation file is not under `src/`.  The data model and the behaviour
of the partitioning and informational entry points are therefore modelled
from the header comments and from the specification, as marked on each
definition.  Bit conventions follow the header: a set bit `i` in a mask
disables TPC `i`; a 64-bit mask on a device with more TPCs disables every
TPC with an index at or beyond the mask width.
-/

/-- A TPC mask as stored by the library: the bit width of the encoding the
caller used (64 for `libsmctrl_set_global_mask`, `libsmctrl_set_stream_mask`
and `libsmctrl_set_next_mask`; 128 for the `_ext`/`_lzc` stream variants)
together with the mask bits, reduced to that width.  Per the header, a set
bit `i` means TPC `i` is disabled. -/
structure Mask where
  width : Nat
  bits : Nat
  deriving DecidableEq

/-- Does mask `m` disable TPC `i`?  Inside the stored width the stored bit
decides; a TPC at or beyond the width is disabled (header, Notes on
Bitmasks: with a 64-bit mask on a larger GPU, "all TPCs with IDs over 64
will be disabled"). -/
def Mask.disables (m : Mask) (i : Nat) : Bool :=
  if i < m.width then m.bits.testBit i else true

/-- The stored form of a `uint64_t mask` argument. -/
def mask64 (m : Nat) : Mask := ⟨64, m % 2 ^ 64⟩

/-- The stored form of a `uint128_t mask` argument. -/
def mask128 (m : Nat) : Mask := ⟨128, m % 2 ^ 128⟩

/-- Modelled from the spec: the four 32-bit words of
`libsmctrl_set_stream_mask_lzc` (implementation not under `src/`) are
"each word independently meaningful, concatenated conceptually" into one
128-bit mask; `mask1` supplies the lowest 32 bits. -/
def lzcCombine (w1 w2 w3 w4 : Nat) : Nat :=
  w1 % 2 ^ 32 + (w2 % 2 ^ 32) * 2 ^ 32 + (w3 % 2 ^ 32) * 2 ^ 64 +
    (w4 % 2 ^ 32) * 2 ^ 96

/-- The 128-bit value a 64-bit mask widens to (low 64 bits unchanged). -/
def widen (m : Nat) : Nat := m % 2 ^ 64

/-- Modelled from the spec: the three mask stores of the implementation
(not under `src/`): the process-wide global default mask, the per-stream
masks keyed by the opaque stream handle, and the thread-local one-shot
next-launch masks keyed by the calling thread.  An absent (`none`) entry
means no restriction at that level. -/
structure SmctrlState where
  globalMask : Option Mask
  streamMasks : Nat → Option Mask
  nextMasks : Nat → Option Mask

/-- The state with no mask set anywhere. -/
def emptyState : SmctrlState := ⟨none, fun _ => none, fun _ => none⟩

/-- Modelled from the spec: `libsmctrl_set_global_mask(mask)` overwrites
the process-wide default TPC mask (on a supported driver version). -/
def libsmctrl_set_global_mask (st : SmctrlState) (mask : Nat) : SmctrlState :=
  { st with globalMask := some (mask64 mask) }

/-- Modelled from the spec: `libsmctrl_set_stream_mask(stream, mask)`
associates the 64-bit mask with the stream, replacing any prior value. -/
def libsmctrl_set_stream_mask (st : SmctrlState) (stream mask : Nat) :
    SmctrlState :=
  { st with streamMasks :=
      fun s => if s = stream then some (mask64 mask) else st.streamMasks s }

/-- Modelled from the spec: `libsmctrl_set_stream_mask_ext(stream, mask)`
associates the 128-bit mask with the stream, replacing any prior value. -/
def libsmctrl_set_stream_mask_ext (st : SmctrlState) (stream mask : Nat) :
    SmctrlState :=
  { st with streamMasks :=
      fun s => if s = stream then some (mask128 mask) else st.streamMasks s }

/-- Modelled from the spec: `libsmctrl_set_stream_mask_lzc(stream, w1..w4)`
associates the concatenation of the four words with the stream, replacing
any prior value. -/
def libsmctrl_set_stream_mask_lzc (st : SmctrlState)
    (stream w1 w2 w3 w4 : Nat) : SmctrlState :=
  { st with streamMasks :=
      fun s => if s = stream then some (mask128 (lzcCombine w1 w2 w3 w4))
               else st.streamMasks s }

/-- Modelled from the spec: `libsmctrl_set_next_mask(mask)` stores the mask
in the calling thread's one-shot slot, silently replacing any pending
value (no queueing). -/
def libsmctrl_set_next_mask (st : SmctrlState) (tid mask : Nat) :
    SmctrlState :=
  { st with nextMasks :=
      fun t => if t = tid then some (mask64 mask) else st.nextMasks t }

/-- Modelled from the spec: the launch-path patcher consults
Next-Launch, then Stream, then Global, in that order, and applies the
first present mask; `none` means the launch proceeds unmodified. -/
def resolveMask (st : SmctrlState) (tid stream : Nat) : Option Mask :=
  match st.nextMasks tid with
  | some m => some m
  | none =>
    match st.streamMasks stream with
    | some m => some m
    | none => st.globalMask

/-- The stream-then-global part of resolution: what a launch sees once no
next-launch mask is pending for its thread. -/
def streamOrGlobal (st : SmctrlState) (stream : Nat) : Option Mask :=
  match st.streamMasks stream with
  | some m => some m
  | none => st.globalMask

/-- Modelled from the spec: one kernel launch from CPU thread `tid` on
stream `stream`: the first component is the effective mask written into
the launch descriptor (`none` = unmodified launch), and the second is the
state afterwards, in which exactly the launching thread's next-launch slot
has been consumed (cleared). -/
def launch (st : SmctrlState) (tid stream : Nat) :
    Option Mask × SmctrlState :=
  (resolveMask st tid stream,
   { st with nextMasks := fun t => if t = tid then none else st.nextMasks t })

/-- Modelled from the spec: the error taxonomy reported by the mutating
operations through the diagnostic channel (the documented surface is
silent; it never aborts the caller). -/
inductive SmctrlError where
  | unsupportedVersion
  deriving DecidableEq

/-- Modelled from the spec: driver versions are encoded as
`major * 10 + minor` (CUDA 6.5 is 65, CUDA 8.0 is 80, CUDA 12.6 is 126).
The offset table has records for the global and next-launch mask hooks on
CUDA 6.5 through CUDA 12.6 (header: "Supported: CUDA 6.5 - CUDA 12.6"). -/
def globalMaskSupported (v : Nat) : Bool := 65 ≤ v && v ≤ 126

/-- Modelled from the spec: the per-stream mask field is available on
CUDA 8.0 through CUDA 12.6 (header: "Supported: CUDA 8.0 - CUDA 12.6"). -/
def streamMaskSupported (v : Nat) : Bool := 80 ≤ v && v ≤ 126

/-- Modelled from the spec: the detected version has a matching offset
record when at least one hook of the static table covers it. -/
def hasOffsetRecord (v : Nat) : Bool :=
  globalMaskSupported v || streamMaskSupported v

/-- Modelled from the spec: `libsmctrl_set_global_mask` as observed under
detected driver version `v`.  The version resolver fails closed: without a
matching offset record the call is a no-op that reports the
unsupported-version condition instead of writing driver memory. -/
def set_global_mask_v (v : Nat) (st : SmctrlState) (mask : Nat) :
    SmctrlState × Option SmctrlError :=
  if globalMaskSupported v then (libsmctrl_set_global_mask st mask, none)
  else (st, some SmctrlError.unsupportedVersion)

/-- Modelled from the spec: `libsmctrl_set_stream_mask` under detected
driver version `v`; no-op reporting unsupported-version outside the
stream-mask support range. -/
def set_stream_mask_v (v : Nat) (st : SmctrlState) (stream mask : Nat) :
    SmctrlState × Option SmctrlError :=
  if streamMaskSupported v then
    (libsmctrl_set_stream_mask st stream mask, none)
  else (st, some SmctrlError.unsupportedVersion)

/-- Modelled from the spec: `libsmctrl_set_stream_mask_ext` under detected
driver version `v`. -/
def set_stream_mask_ext_v (v : Nat) (st : SmctrlState) (stream mask : Nat) :
    SmctrlState × Option SmctrlError :=
  if streamMaskSupported v then
    (libsmctrl_set_stream_mask_ext st stream mask, none)
  else (st, some SmctrlError.unsupportedVersion)

/-- Modelled from the spec: `libsmctrl_set_stream_mask_lzc` under detected
driver version `v`. -/
def set_stream_mask_lzc_v (v : Nat) (st : SmctrlState)
    (stream w1 w2 w3 w4 : Nat) : SmctrlState × Option SmctrlError :=
  if streamMaskSupported v then
    (libsmctrl_set_stream_mask_lzc st stream w1 w2 w3 w4, none)
  else (st, some SmctrlError.unsupportedVersion)

/-- Modelled from the spec: `libsmctrl_set_next_mask` under detected
driver version `v`. -/
def set_next_mask_v (v : Nat) (st : SmctrlState) (tid mask : Nat) :
    SmctrlState × Option SmctrlError :=
  if globalMaskSupported v then (libsmctrl_set_next_mask st tid mask, none)
  else (st, some SmctrlError.unsupportedVersion)

/-- Population count of a natural number: the number of set bits.  Every
set bit of `n` has index below `n`, so scanning `List.range n` is exact. -/
def popcount (n : Nat) : Nat := ((List.range n).filter n.testBit).length

/-- Modelled from the spec: the topology of one `nvdebug` device: the
GPC-indexed array of TPC membership bitmasks. -/
structure GpuDevice where
  gpcTpcMasks : List Nat
  deriving DecidableEq

/-- Modelled from the spec: the environment the informational operations
read: whether the `nvdebug` debug-introspection module is loaded, the
`nvdebug`-enumerated devices, and the per-CUDA-device TPC counts obtained
from public device-attribute queries (no `nvdebug` dependency). -/
structure Env where
  nvdebugLoaded : Bool
  devices : List GpuDevice
  cudaDevices : List Nat
  deriving DecidableEq

/-- `errno` code for a missing module (`ENOENT`), reported when `nvdebug`
is not loaded. -/
def ENOENT : Nat := 2

/-- `errno` code for a nonexistent device (`ENODEV`), reported for a
device index outside the enumerated range. -/
def ENODEV : Nat := 19

/-- Modelled from the spec: `libsmctrl_get_gpc_info(dev)` returns the GPC
count and the per-GPC TPC bitmask array; it requires `nvdebug` and fails
with a distinct nonzero `errno`-compatible code when the module is absent
or the device index is out of range.  `Except.error` models a nonzero
return code with the output parameters left unwritten; `Except.ok` models
a 0 return with the outputs written. -/
def libsmctrl_get_gpc_info (e : Env) (dev : Nat) :
    Except Nat (Nat × List Nat) :=
  if e.nvdebugLoaded then
    match e.devices[dev]? with
    | some d => Except.ok (d.gpcTpcMasks.length, d.gpcTpcMasks)
    | none => Except.error ENODEV
  else Except.error ENOENT

/-- Modelled from the spec: `libsmctrl_get_tpc_info(dev)` returns the
total TPC count of the device, obtained through the same `nvdebug` query
as the GPC info: the TPCs of the device are those listed in its per-GPC
membership bitmasks. -/
def libsmctrl_get_tpc_info (e : Env) (dev : Nat) : Except Nat Nat :=
  match libsmctrl_get_gpc_info e dev with
  | Except.ok p => Except.ok (p.2.map popcount).sum
  | Except.error c => Except.error c

/-- Modelled from the spec: `libsmctrl_get_tpc_info_cuda(cuda_dev)`
derives the TPC count purely from public device-attribute queries and does
not depend on `nvdebug`. -/
def libsmctrl_get_tpc_info_cuda (e : Env) (cudaDev : Nat) :
    Except Nat Nat :=
  match e.cudaDevices[cudaDev]? with
  | some n => Except.ok n
  | none => Except.error ENODEV

/-- Low 64 bits: the first two `_lzc` words of a 64-bit mask concatenate
back to that mask reduced to 64 bits. -/
theorem lzc_low64 (m : Nat) :
    lzcCombine (m % 2 ^ 32) (m / 2 ^ 32 % 2 ^ 32) 0 0 = m % 2 ^ 64 := by
  have h32 : (2 : Nat) ^ 32 = 4294967296 := by norm_num
  have h64 : (2 : Nat) ^ 64 = 18446744073709551616 := by norm_num
  have h96 : (2 : Nat) ^ 96 = 79228162514264337593543950336 := by norm_num
  rw [lzcCombine, h32, h64, h96]
  omega

/-- Claim C1: exactly one mask determines each launch, by the fixed total
precedence Next-Launch, then Stream, then Global: a pending next-launch
mask applies regardless of the stream and global stores; otherwise a
present stream mask applies regardless of the global store; otherwise the
global mask applies when set; otherwise the launch proceeds unmodified. -/
theorem launch_mask_precedence (st : SmctrlState) (tid stream : Nat) :
    (∀ m, st.nextMasks tid = some m → (launch st tid stream).fst = some m) ∧
    (st.nextMasks tid = none →
      ∀ m, st.streamMasks stream = some m →
        (launch st tid stream).fst = some m) ∧
    (st.nextMasks tid = none → st.streamMasks stream = none →
      ∀ m, st.globalMask = some m → (launch st tid stream).fst = some m) ∧
    (st.nextMasks tid = none → st.streamMasks stream = none →
      st.globalMask = none → (launch st tid stream).fst = none) := by
  refine ⟨?_, ?_, ?_, ?_⟩ <;> intros <;> simp [launch, resolveMask, *]

/-- A concrete store state with all three mask levels populated. -/
def stPrec : SmctrlState :=
  ⟨some (mask64 7), fun _ => some (mask64 9), fun _ => some (mask64 5)⟩

/-- Witness for C1: with all three levels set, the next-launch mask wins. -/
theorem launch_mask_precedence_witness :
    (launch stPrec 0 1).fst = some (mask64 5) :=
  (launch_mask_precedence stPrec 0 1).1 (mask64 5) rfl

/-- Claim C2: the next-launch mask is one-shot and thread-scoped: it is
consumed and cleared by exactly the next launch from the setting thread,
regardless of stream; with masks `m1`, `m2` set before successive launches
from one thread, the first launch reflects `m1` only, the second `m2`
only, and a further launch with no next-mask pending reverts to the
stream-then-global resolution; a launch from a different thread does not
consume the slot. -/
theorem next_mask_one_shot (st : SmctrlState)
    (tid tid2 s1 s2 s3 s4 m1 m2 : Nat) (hm : m1 ≠ m2) (ht : tid2 ≠ tid) :
    ((launch (libsmctrl_set_next_mask st tid m1) tid s1).fst
        = some (mask64 m1)) ∧
    ((launch (libsmctrl_set_next_mask st tid m1) tid s1).snd.nextMasks tid
        = none) ∧
    ((launch (libsmctrl_set_next_mask
        (launch (libsmctrl_set_next_mask st tid m1) tid s1).snd tid m2)
        tid s2).fst = some (mask64 m2)) ∧
    ((launch (launch (libsmctrl_set_next_mask
        (launch (libsmctrl_set_next_mask st tid m1) tid s1).snd tid m2)
        tid s2).snd tid s3).fst = streamOrGlobal st s3) ∧
    ((launch st tid2 s4).snd.nextMasks tid = st.nextMasks tid) := by
  refine ⟨?_, ?_, ?_, ?_, ?_⟩
  · simp [launch, resolveMask, libsmctrl_set_next_mask]
  · simp [launch]
  · simp [launch, resolveMask, libsmctrl_set_next_mask]
  · simp [launch, resolveMask, streamOrGlobal, libsmctrl_set_next_mask]
  · simp [launch, Ne.symm ht]

/-- A concrete store state with only a global mask set. -/
def stOne : SmctrlState := ⟨some (mask64 3), fun _ => none, fun _ => none⟩

/-- Witness for C2 at thread 0, other thread 1, masks 5 and 6. -/
theorem next_mask_one_shot_witness :
    (5 : Nat) ≠ 6 ∧ (1 : Nat) ≠ 0 ∧
    (((launch (libsmctrl_set_next_mask stOne 0 5) 0 1).fst
        = some (mask64 5)) ∧
     ((launch (libsmctrl_set_next_mask stOne 0 5) 0 1).snd.nextMasks 0
        = none) ∧
     ((launch (libsmctrl_set_next_mask
        (launch (libsmctrl_set_next_mask stOne 0 5) 0 1).snd 0 6)
        0 2).fst = some (mask64 6)) ∧
     ((launch (launch (libsmctrl_set_next_mask
        (launch (libsmctrl_set_next_mask stOne 0 5) 0 1).snd 0 6)
        0 2).snd 0 3).fst = streamOrGlobal stOne 3) ∧
     ((launch stOne 1 4).snd.nextMasks 0 = stOne.nextMasks 0)) :=
  ⟨by decide, by decide,
    next_mask_one_shot stOne 0 1 1 2 3 4 5 6 (by decide) (by decide)⟩

/-- Claim C3: the three stream-mask encodings are equivalent: for a stream
`s`, a 64-bit mask `m` and any TPC index `i` representable in all three
encodings (`i < 64`), `libsmctrl_set_stream_mask`,
`libsmctrl_set_stream_mask_ext` on the widened mask, and
`libsmctrl_set_stream_mask_lzc` on the corresponding four words store
masks that yield the same enable/disable decision for TPC `i`. -/
theorem stream_mask_encodings_equiv (st : SmctrlState) (stream m i : Nat)
    (hi : i < 64) :
    ((libsmctrl_set_stream_mask st stream m).streamMasks stream
        = some (mask64 m)) ∧
    ((libsmctrl_set_stream_mask_ext st stream (widen m)).streamMasks stream
        = some (mask128 (widen m))) ∧
    ((libsmctrl_set_stream_mask_lzc st stream (m % 2 ^ 32)
        (m / 2 ^ 32 % 2 ^ 32) 0 0).streamMasks stream
        = some (mask128 (lzcCombine (m % 2 ^ 32) (m / 2 ^ 32 % 2 ^ 32) 0 0))) ∧
    ((mask64 m).disables i = (mask128 (widen m)).disables i) ∧
    ((mask128 (widen m)).disables i
        = (mask128 (lzcCombine (m % 2 ^ 32) (m / 2 ^ 32 % 2 ^ 32) 0 0)).disables i) := by
  refine ⟨?_, ?_, ?_, ?_, ?_⟩
  · simp [libsmctrl_set_stream_mask]
  · simp [libsmctrl_set_stream_mask_ext]
  · simp [libsmctrl_set_stream_mask_lzc]
  · simp only [mask64, mask128, widen, Mask.disables]
    rw [if_pos hi, if_pos (by omega : i < 128)]
    rw [Nat.mod_eq_of_lt
      (Nat.lt_of_lt_of_le (Nat.mod_lt m (by norm_num))
        (by norm_num : (2 : Nat) ^ 64 ≤ 2 ^ 128))]
  · rw [lzc_low64]
    simp only [widen]

/-- Witness for C3 at mask 6, TPC index 1. -/
theorem stream_mask_encodings_equiv_witness :
    (1 : Nat) < 64 ∧
    (((libsmctrl_set_stream_mask emptyState 0 6).streamMasks 0
        = some (mask64 6)) ∧
     ((libsmctrl_set_stream_mask_ext emptyState 0 (widen 6)).streamMasks 0
        = some (mask128 (widen 6))) ∧
     ((libsmctrl_set_stream_mask_lzc emptyState 0 (6 % 2 ^ 32)
        (6 / 2 ^ 32 % 2 ^ 32) 0 0).streamMasks 0
        = some (mask128 (lzcCombine (6 % 2 ^ 32) (6 / 2 ^ 32 % 2 ^ 32) 0 0))) ∧
     ((mask64 6).disables 1 = (mask128 (widen 6)).disables 1) ∧
     ((mask128 (widen 6)).disables 1
        = (mask128 (lzcCombine (6 % 2 ^ 32) (6 / 2 ^ 32 % 2 ^ 32) 0 0)).disables 1)) :=
  ⟨by decide, stream_mask_encodings_equiv emptyState 0 6 1 (by decide)⟩

/-- Claim C4: on a device with `T` TPCs the enforced mask width is
`min(requested_width, max(64, T))`: for an existing TPC `i`, the stored
bit decides inside that width and every TPC at or beyond it is disabled;
in particular a 64-bit mask on an 80-TPC device disables TPCs 64 through
79 whatever its explicit bits. -/
theorem mask_width_enforced (w mbits T i : Nat) (hiT : i < T) :
    ((Mask.mk w mbits).disables i
        = if i < min w (max 64 T) then mbits.testBit i else true) ∧
    (∀ m j, 64 ≤ j → j < 80 → (mask64 m).disables j = true) := by
  constructor
  · simp only [Mask.disables]
    split <;> split <;> first | rfl | omega
  · intro m j h64 h80
    simp only [mask64, Mask.disables]
    rw [if_neg (by omega)]

/-- Witness for C4: TPC 70 of an 80-TPC device under a width-64 mask. -/
theorem mask_width_enforced_witness :
    (70 : Nat) < 80 ∧
    (((Mask.mk 64 5).disables 70
        = if 70 < min 64 (max 64 80) then Nat.testBit 5 70 else true) ∧
     (∀ m j, 64 ≤ j → j < 80 → (mask64 m).disables j = true)) :=
  ⟨by decide, mask_width_enforced 64 5 80 70 (by decide)⟩

/-- Claim C5: bitmask polarity: every mask-setting operation stores its
argument so that a set bit `i` disables TPC `i` and a clear bit leaves it
enabled; concretely, after `set_global_mask(~0x1)` a launch with no stream
or next-launch mask set gets an effective mask that leaves TPC 0 enabled
and disables every other TPC. -/
theorem mask_polarity (st : SmctrlState) (m i tid stream : Nat)
    (hi : i < 64) :
    ((libsmctrl_set_global_mask st m).globalMask = some (mask64 m)) ∧
    ((libsmctrl_set_stream_mask st stream m).streamMasks stream
        = some (mask64 m)) ∧
    ((libsmctrl_set_next_mask st tid m).nextMasks tid = some (mask64 m)) ∧
    ((mask64 m).disables i = m.testBit i) ∧
    (∀ r, (launch (libsmctrl_set_global_mask emptyState (2 ^ 64 - 2))
        tid stream).fst = some r →
      r.disables 0 = false ∧ ∀ j, 0 < j → r.disables j = true) := by
  refine ⟨?_, ?_, ?_, ?_, ?_⟩
  · simp [libsmctrl_set_global_mask]
  · simp [libsmctrl_set_stream_mask]
  · simp [libsmctrl_set_next_mask]
  · simp only [mask64, Mask.disables]
    rw [if_pos hi, Nat.testBit_mod_two_pow]
    simp [hi]
  · intro r hr
    have hfst : (launch (libsmctrl_set_global_mask emptyState (2 ^ 64 - 2))
        tid stream).fst = some (mask64 (2 ^ 64 - 2)) := by
      simp [launch, resolveMask, libsmctrl_set_global_mask, emptyState]
    rw [hfst] at hr
    obtain rfl : mask64 (2 ^ 64 - 2) = r := Option.some.inj hr
    have hmod : (2 ^ 64 - 2) % 2 ^ 64 = 2 ^ 64 - 2 :=
      Nat.mod_eq_of_lt (by norm_num)
    constructor
    · simp only [mask64, Mask.disables, hmod]
      rw [if_pos (by norm_num)]
      simp only [Nat.testBit_zero]
      norm_num
    · intro j hj
      simp only [mask64, Mask.disables, hmod]
      by_cases hj64 : j < 64
      · rw [if_pos hj64]
        obtain ⟨k, rfl⟩ : ∃ k, j = k + 1 := ⟨j - 1, by omega⟩
        have h2 : (2 : Nat) ^ 64 - 2 = 2 * (2 ^ 63 - 1) := by norm_num
        rw [h2, Nat.testBit_add_one,
          Nat.mul_div_cancel_left _ (by norm_num : 0 < 2),
          Nat.testBit_two_pow_sub_one]
        simp only [decide_eq_true_eq]
        omega
      · rw [if_neg hj64]

/-- Witness for C5 at mask 2, TPC index 1, on the empty store state. -/
theorem mask_polarity_witness :
    (1 : Nat) < 64 ∧
    (((libsmctrl_set_global_mask emptyState 2).globalMask
        = some (mask64 2)) ∧
     ((libsmctrl_set_stream_mask emptyState 0 2).streamMasks 0
        = some (mask64 2)) ∧
     ((libsmctrl_set_next_mask emptyState 0 2).nextMasks 0
        = some (mask64 2)) ∧
     ((mask64 2).disables 1 = Nat.testBit 2 1) ∧
     (∀ r, (launch (libsmctrl_set_global_mask emptyState (2 ^ 64 - 2))
        0 0).fst = some r →
      r.disables 0 = false ∧ ∀ j, 0 < j → r.disables j = true)) :=
  ⟨by decide, mask_polarity emptyState 2 1 0 0 (by decide)⟩

/-- Claim C6: unsupported versions fail closed: with no matching offset
record, every mutating mask operation leaves the stores untouched and
reports the unsupported-version condition (it is a total function of the
state, never an abort), while the read-only device-attribute fallback
`libsmctrl_get_tpc_info_cuda` still answers. -/
theorem unsupported_version_fails_closed (v : Nat)
    (hv : hasOffsetRecord v = false) (st : SmctrlState)
    (stream m me w1 w2 w3 w4 tid : Nat) (e : Env) (c n : Nat) :
    set_global_mask_v v st m = (st, some SmctrlError.unsupportedVersion) ∧
    set_stream_mask_v v st stream m
      = (st, some SmctrlError.unsupportedVersion) ∧
    set_stream_mask_ext_v v st stream me
      = (st, some SmctrlError.unsupportedVersion) ∧
    set_stream_mask_lzc_v v st stream w1 w2 w3 w4
      = (st, some SmctrlError.unsupportedVersion) ∧
    set_next_mask_v v st tid m
      = (st, some SmctrlError.unsupportedVersion) ∧
    (e.cudaDevices[c]? = some n →
      libsmctrl_get_tpc_info_cuda e c = Except.ok n) := by
  rw [hasOffsetRecord, Bool.or_eq_false_iff] at hv
  obtain ⟨hg, hs⟩ := hv
  refine ⟨?_, ?_, ?_, ?_, ?_, ?_⟩
  · simp [set_global_mask_v, hg]
  · simp [set_stream_mask_v, hs]
  · simp [set_stream_mask_ext_v, hs]
  · simp [set_stream_mask_lzc_v, hs]
  · simp [set_next_mask_v, hg]
  · intro h
    simp [libsmctrl_get_tpc_info_cuda, h]

/-- A concrete environment: nvdebug absent, one device of two GPCs, one
CUDA device reporting 8 TPCs. -/
def envNoDebug : Env := ⟨false, [⟨[3, 5]⟩], [8]⟩

/-- Witness for C6 at version 130 (CUDA 13.0, outside the table). -/
theorem unsupported_version_fails_closed_witness :
    hasOffsetRecord 130 = false ∧
    (set_global_mask_v 130 stOne 9
        = (stOne, some SmctrlError.unsupportedVersion) ∧
     set_stream_mask_v 130 stOne 0 9
        = (stOne, some SmctrlError.unsupportedVersion) ∧
     set_stream_mask_ext_v 130 stOne 0 9
        = (stOne, some SmctrlError.unsupportedVersion) ∧
     set_stream_mask_lzc_v 130 stOne 0 1 2 3 4
        = (stOne, some SmctrlError.unsupportedVersion) ∧
     set_next_mask_v 130 stOne 0 9
        = (stOne, some SmctrlError.unsupportedVersion) ∧
     (envNoDebug.cudaDevices[0]? = some 8 →
       libsmctrl_get_tpc_info_cuda envNoDebug 0 = Except.ok 8)) :=
  ⟨by decide, unsupported_version_fails_closed 130 (by decide) stOne
    0 9 9 1 2 3 4 0 envNoDebug 0 8⟩

/-- Claim C7: informational operations report `errno`-compatible codes:
with `nvdebug` absent, `libsmctrl_get_gpc_info` and
`libsmctrl_get_tpc_info` fail with the missing-module code and no outputs
are produced, while `libsmctrl_get_tpc_info_cuda` is unaffected; an
out-of-range device index gets its own distinct nonzero code, not a
zero-GPC success. -/
theorem info_error_codes (e : Env) (dev c : Nat)
    (hmod : e.nvdebugLoaded = false) :
    libsmctrl_get_gpc_info e dev = Except.error ENOENT ∧
    libsmctrl_get_tpc_info e dev = Except.error ENOENT ∧
    libsmctrl_get_tpc_info_cuda e c
      = libsmctrl_get_tpc_info_cuda ⟨true, e.devices, e.cudaDevices⟩ c ∧
    ENOENT ≠ 0 ∧
    (∀ e2 : Env, e2.nvdebugLoaded = true → e2.devices.length ≤ dev →
      libsmctrl_get_gpc_info e2 dev = Except.error ENODEV) ∧
    ENODEV ≠ 0 ∧ ENODEV ≠ ENOENT := by
  refine ⟨?_, ?_, ?_, by decide, ?_, by decide, by decide⟩
  · simp [libsmctrl_get_gpc_info, hmod]
  · simp [libsmctrl_get_tpc_info, libsmctrl_get_gpc_info, hmod]
  · simp [libsmctrl_get_tpc_info_cuda]
  · intro e2 hl hd
    simp [libsmctrl_get_gpc_info, hl, List.getElem?_eq_none hd]

/-- Witness for C7 on the nvdebug-less environment, device index 1 (out
of range). -/
theorem info_error_codes_witness :
    envNoDebug.nvdebugLoaded = false ∧
    (libsmctrl_get_gpc_info envNoDebug 1 = Except.error ENOENT ∧
     libsmctrl_get_tpc_info envNoDebug 1 = Except.error ENOENT ∧
     libsmctrl_get_tpc_info_cuda envNoDebug 0
       = libsmctrl_get_tpc_info_cuda
           ⟨true, envNoDebug.devices, envNoDebug.cudaDevices⟩ 0 ∧
     ENOENT ≠ 0 ∧
     (∀ e2 : Env, e2.nvdebugLoaded = true → e2.devices.length ≤ 1 →
       libsmctrl_get_gpc_info e2 1 = Except.error ENODEV) ∧
     ENODEV ≠ 0 ∧ ENODEV ≠ ENOENT) :=
  ⟨rfl, info_error_codes envNoDebug 1 0 rfl⟩

/-- Claim C8: topology consistency: whenever `libsmctrl_get_gpc_info` and
`libsmctrl_get_tpc_info` both succeed on a device, the sum of the
population counts of the per-GPC TPC bitmasks equals the reported TPC
count. -/
theorem gpc_tpc_popcount_sum (e : Env) (dev gc n : Nat) (masks : List Nat)
    (h1 : libsmctrl_get_gpc_info e dev = Except.ok (gc, masks))
    (h2 : libsmctrl_get_tpc_info e dev = Except.ok n) :
    (masks.map popcount).sum = n := by
  unfold libsmctrl_get_tpc_info at h2
  rw [h1] at h2
  simpa using h2

/-- A concrete environment with nvdebug loaded: one device of two GPCs
whose TPC masks are 3 and 5 (two TPCs each). -/
def envTopo : Env := ⟨true, [⟨[3, 5]⟩], [8]⟩

/-- Witness for C8: on the two-GPC device the popcounts sum to the
reported TPC count 4. -/
theorem gpc_tpc_popcount_sum_witness :
    libsmctrl_get_gpc_info envTopo 0 = Except.ok (2, [3, 5]) ∧
    libsmctrl_get_tpc_info envTopo 0 = Except.ok 4 ∧
    ([3, 5].map popcount).sum = 4 :=
  ⟨by rfl, by rfl, gpc_tpc_popcount_sum envTopo 0 2 4 [3, 5] (by rfl) (by rfl)⟩

/-- Claim C9: mask-store writes are last-write-wins: re-setting a stream's
mask through any variant replaces the prior association, a repeated
`libsmctrl_set_next_mask` on one thread silently replaces the pending
value, and the all-zero mask leaves every TPC of the encoding enabled
(the way to remove a restriction; no unset operation exists). -/
theorem mask_store_overwrite (st : SmctrlState)
    (stream tid m1 m2 me w1 w2 w3 w4 i : Nat) (hi : i < 128) :
    ((libsmctrl_set_stream_mask (libsmctrl_set_stream_mask st stream m1)
        stream m2).streamMasks stream = some (mask64 m2)) ∧
    ((libsmctrl_set_stream_mask_ext (libsmctrl_set_stream_mask st stream m1)
        stream me).streamMasks stream = some (mask128 me)) ∧
    ((libsmctrl_set_stream_mask_lzc (libsmctrl_set_stream_mask_ext st stream me)
        stream w1 w2 w3 w4).streamMasks stream
        = some (mask128 (lzcCombine w1 w2 w3 w4))) ∧
    ((libsmctrl_set_next_mask (libsmctrl_set_next_mask st tid m1) tid
        m2).nextMasks tid = some (mask64 m2)) ∧
    ((mask128 0).disables i = false) := by
  refine ⟨?_, ?_, ?_, ?_, ?_⟩
  · simp [libsmctrl_set_stream_mask]
  · simp [libsmctrl_set_stream_mask_ext, libsmctrl_set_stream_mask]
  · simp [libsmctrl_set_stream_mask_lzc, libsmctrl_set_stream_mask_ext]
  · simp [libsmctrl_set_next_mask]
  · simp [mask128, Mask.disables, hi]

/-- Witness for C9 at stream 0, thread 0, TPC index 100. -/
theorem mask_store_overwrite_witness :
    (100 : Nat) < 128 ∧
    (((libsmctrl_set_stream_mask (libsmctrl_set_stream_mask stOne 0 7)
        0 9).streamMasks 0 = some (mask64 9)) ∧
     ((libsmctrl_set_stream_mask_ext (libsmctrl_set_stream_mask stOne 0 7)
        0 11).streamMasks 0 = some (mask128 11)) ∧
     ((libsmctrl_set_stream_mask_lzc (libsmctrl_set_stream_mask_ext stOne 0 11)
        0 1 2 3 4).streamMasks 0
        = some (mask128 (lzcCombine 1 2 3 4))) ∧
     ((libsmctrl_set_next_mask (libsmctrl_set_next_mask stOne 0 7) 0
        9).nextMasks 0 = some (mask64 9)) ∧
     ((mask128 0).disables 100 = false)) :=
  ⟨by decide, mask_store_overwrite stOne 0 0 7 9 11 1 2 3 4 100 (by decide)⟩

/-- Claim C10: the supported version range differs per operation: on a
driver from CUDA 6.5 up to (excluding) CUDA 8.0 the global and next-launch
hooks are in the offset table and those calls take effect, while every
stream-mask variant is an unsupported-version no-op; all are supported
through CUDA 12.6. -/
theorem version_support_ranges (v : Nat) (st : SmctrlState)
    (stream m me w1 w2 w3 w4 tid : Nat) (h1 : 65 ≤ v) (h2 : v < 80) :
    globalMaskSupported v = true ∧
    streamMaskSupported v = false ∧
    set_stream_mask_v v st stream m
      = (st, some SmctrlError.unsupportedVersion) ∧
    set_stream_mask_ext_v v st stream me
      = (st, some SmctrlError.unsupportedVersion) ∧
    set_stream_mask_lzc_v v st stream w1 w2 w3 w4
      = (st, some SmctrlError.unsupportedVersion) ∧
    set_global_mask_v v st m = (libsmctrl_set_global_mask st m, none) ∧
    set_next_mask_v v st tid m = (libsmctrl_set_next_mask st tid m, none) := by
  have hg : globalMaskSupported v = true := by
    simp only [globalMaskSupported, Bool.and_eq_true, decide_eq_true_eq]
    omega
  have hs : streamMaskSupported v = false := by
    simp only [streamMaskSupported, Bool.and_eq_false_iff]
    left
    simp only [decide_eq_false_iff_not]
    omega
  refine ⟨hg, hs, ?_, ?_, ?_, ?_, ?_⟩
  · simp [set_stream_mask_v, hs]
  · simp [set_stream_mask_ext_v, hs]
  · simp [set_stream_mask_lzc_v, hs]
  · simp [set_global_mask_v, hg]
  · simp [set_next_mask_v, hg]

/-- Witness for C10 at version 70 (CUDA 7.0). -/
theorem version_support_ranges_witness :
    (65 : Nat) ≤ 70 ∧ (70 : Nat) < 80 ∧
    (globalMaskSupported 70 = true ∧
     streamMaskSupported 70 = false ∧
     set_stream_mask_v 70 stOne 0 9
       = (stOne, some SmctrlError.unsupportedVersion) ∧
     set_stream_mask_ext_v 70 stOne 0 11
       = (stOne, some SmctrlError.unsupportedVersion) ∧
     set_stream_mask_lzc_v 70 stOne 0 1 2 3 4
       = (stOne, some SmctrlError.unsupportedVersion) ∧
     set_global_mask_v 70 stOne 9
       = (libsmctrl_set_global_mask stOne 9, none) ∧
     set_next_mask_v 70 stOne 0 9
       = (libsmctrl_set_next_mask stOne 0 9, none)) :=
  ⟨by decide, by decide,
    version_support_ranges 70 stOne 0 9 11 1 2 3 4 0 (by decide) (by decide)⟩
